import Mathlib

/-!
Shallow embedding of the cnn-transformer deepfake-detector training and
evaluation code (src/train.py, src/eval.py, src/test.py,
src/network/model.py), together with theorems settling the specification
claims about it.

Scalar tensor entries are modelled as `FVal`: an exact rational together
with a `nan` element that propagates through arithmetic exactly as IEEE
NaN does in PyTorch (any operation touching NaN yields NaN; the mean of
an empty tensor is NaN).  Python dictionaries are association lists and a
missing key is a `KeyError`, modelled as `Except.error` carrying the key.
-/

/-- Scalar value of a float tensor entry: either NaN or an exact rational. -/
inductive FVal where
  | nan : FVal
  | val : ℚ → FVal
deriving DecidableEq

/-- Addition with NaN propagation. -/
def addF : FVal → FVal → FVal
  | .val a, .val b => .val (a + b)
  | _, _ => .nan

/-- Subtraction with NaN propagation. -/
def subF : FVal → FVal → FVal
  | .val a, .val b => .val (a - b)
  | _, _ => .nan

/-- Multiplication with NaN propagation. -/
def mulF : FVal → FVal → FVal
  | .val a, .val b => .val (a * b)
  | _, _ => .nan

/-- Multiplication by a (non-NaN) Python float scalar, with NaN propagation. -/
def scaleF (q : ℚ) : FVal → FVal
  | .val a => .val (q * a)
  | .nan => .nan

/-- torch.relu: max with 0; relu of NaN is NaN. -/
def reluF : FVal → FVal
  | .val a => .val (max a 0)
  | .nan => .nan

/-- torch.sum over a list of entries; the empty sum is 0 and NaN propagates. -/
def sumF (l : List FVal) : FVal := l.foldr addF (.val 0)

/-- torch.mean over a list of entries: sum divided by the length.
The mean of an empty tensor is NaN, as in PyTorch. -/
def meanF (l : List FVal) : FVal :=
  if l.isEmpty then .nan else scaleF (1 / (l.length : ℚ)) (sumF l)

/-- Boolean-mask indexing `t[mask]` on the batch axis. -/
def selectMask (xs : List FVal) (mask : List Bool) : List FVal :=
  ((xs.zip mask).filter (fun p => p.2)).map (fun p => p.1)

/-- A float tensor, viewed as its list of rows. -/
abbrev Tensor := List (List FVal)

/-- Dot product of two rows, with NaN propagation. -/
def dotF (xs ys : List FVal) : FVal := sumF (List.zipWith mulF xs ys)

/-- torch.mm: matrix product of two row-major matrices. -/
def matMulF (a b : Tensor) : Tensor :=
  a.map (fun row => b.transpose.map (fun col => dotF row col))

/-- torch.norm(M) ** 2: the squared Frobenius norm, i.e. the sum of the
squared entries (the square cancels the square root exactly because the
sum of squares is nonnegative). -/
def frobSq (m : Tensor) : FVal :=
  sumF (m.map (fun r => sumF (r.map (fun x => mulF x x))))

/-- F.one_hot(label, num_classes=2).float(): label 0 maps to (1, 0) and
label 1 maps to (0, 1). -/
def oneHot2 (l : Fin 2) : ℚ × ℚ := if l = 0 then (1, 0) else (0, 1)

/-- Python dict access `d[k]`: `Except.error k` is the KeyError raised
when the key is absent. -/
def dictGet (d : List (String × Tensor)) (k : String) : Except String Tensor :=
  match d.find? (fun p => p.1 == k) with
  | some p => .ok p.2
  | none => .error k

/-- Dynamic ramp weight of the Full phase, from src/train.py line 86:
`0.3 * min(1.0, (epoch - 0.2 * max_epochs) / (0.8 * max_epochs))`. -/
def dynamic_weight (epoch max_epochs : ℚ) : ℚ :=
  0.3 * min 1 ((epoch - 0.2 * max_epochs) / (0.8 * max_epochs))

/-- Ramp weight as the specification words it: `0.3 * min(1, (p - 0.2) / 0.8)`
for the training progress `p = epoch / max_epochs`.  Stated separately from
`dynamic_weight` so the two can be compared. -/
def rampWeight (p : ℚ) : ℚ := 0.3 * min 1 ((p - 0.2) / 0.8)

/-- combined_loss from src/train.py lines 49-95.  `outputs` is the Python
dict handed to the loss; `criterion` is the classification criterion,
applied to the logits and the one-hot labels.  Returns the total loss and
the three diagnostic components (cls, incons, orth), or the KeyError key.
Dict accesses happen in source order: `outputs['logits']` (line 53),
`outputs['tcm_inconsistency']` (line 55, before any phase branch), and
`outputs['dama_feats']`, `outputs['tcm_feats']` (line 89, reached only
outside the warm-up phase, which returns at line 61). -/
def combined_loss (outputs : List (String × Tensor)) (labels : List (Fin 2))
    (criterion : Tensor → List (ℚ × ℚ) → FVal) (epoch max_epochs : ℚ) :
    Except String (FVal × FVal × FVal × FVal) :=
  match dictGet outputs "logits" with
  | .error k => .error k
  | .ok logits =>
    let labelsOH := labels.map oneHot2
    match dictGet outputs "tcm_inconsistency" with
    | .error k => .error k
    | .ok incons_scores =>
      if epoch < 0.1 * max_epochs then
        let cls := criterion logits labelsOH
        .ok (cls, cls, .val 0, .val 0)
      else
        let cls := criterion logits labelsOH
        let dwIncons :=
          if 0.1 * max_epochs ≤ epoch ∧ epoch < 0.2 * max_epochs then
            ((0 : ℚ), FVal.val 0)
          else
            let scoresB := incons_scores.map meanF
            let realMask := labelsOH.map (fun p => decide (p.1 = (1 : ℚ)))
            let term1 := reluF (subF (meanF (selectMask scoresB realMask)) (.val 0.1))
            let term2 := reluF (subF (.val 0.3)
              (meanF (selectMask scoresB (realMask.map not))))
            (dynamic_weight epoch max_epochs, addF term1 term2)
        match dictGet outputs "dama_feats" with
        | .error k => .error k
        | .ok dama_feats =>
          match dictGet outputs "tcm_feats" with
          | .error k => .error k
          | .ok tcm_feats =>
            let loss_orth := frobSq (matMulF dama_feats.transpose tcm_feats)
            .ok (addF (addF cls (scaleF dwIncons.1 dwIncons.2))
                   (scaleF 0.01 loss_orth),
                 cls, dwIncons.2, loss_orth)

/-- Model Output bundle returned by DeepfakeDetector.forward, from
src/network/model.py lines 108-112 (multi-GPU path) and 150-154
(single-GPU path): both return sites build the same three keys. -/
def forward_output (logits dama_feats tcm_consistency : Tensor) :
    List (String × Tensor) :=
  [("logits", logits), ("dama_feats", dama_feats),
   ("tcm_consistency", tcm_consistency)]

/-- Size of the temporal shard given to a GPU, from src/network/model.py
lines 62-67: `frames_per_gpu = T // num_gpus` plus one extra frame when
`gpu_id < T % num_gpus`. -/
def shardSize (T G g : ℕ) : ℕ := T / G + if g < T % G then 1 else 0

/-- Shard sizes assigned to GPUs 0, ..., G-1 in order, before skipping. -/
def rawShards (T G : ℕ) : List ℕ := (List.range G).map (shardSize T G)

/-- Shard sizes actually processed: a shard with `current_frames <= 0`
is skipped by the `continue` at src/network/model.py line 70. -/
def shardSizes (T G : ℕ) : List ℕ := (rawShards T G).filter (fun c => decide (0 < c))

/-- Frame-index slices `x[:, start_idx:end_idx]` produced by the dispatch
loop (src/network/model.py lines 61-91): consecutive slices starting at
`start_idx = 0`, advancing by the shard size, skipping empty shards. -/
def shardFrames : List ℕ → ℕ → List (List ℕ)
  | [], _ => []
  | c :: cs, s =>
    if c = 0 then shardFrames cs s
    else List.range' s c :: shardFrames cs (s + c)

/-- Number of in-loop optimizer steps of train_epoch (src/train.py line
117): a step fires after batch i (0-based) iff `(i + 1) % accum_steps == 0`. -/
def optimStepsInLoop (numBatches accum : ℕ) : ℕ :=
  ((List.range numBatches).filter (fun i => decide ((i + 1) % accum = 0))).length

/-- Flush step of train_epoch (src/train.py line 131): one extra step iff
`len(dataloader.dataset) % accum_steps != 0` — the number of dataset
samples, not the number of batches. -/
def flushSteps (datasetSize accum : ℕ) : ℕ :=
  if datasetSize % accum ≠ 0 then 1 else 0

/-- Total optimizer steps of one call of train_epoch. -/
def totalOptimSteps (numBatches datasetSize accum : ℕ) : ℕ :=
  optimStepsInLoop numBatches accum + flushSteps datasetSize accum

/-- Optimizer steps as the specification words it: a step after every
accum_steps-th batch plus a final flush when the last window of batches is
partial.  Stated separately so it can be compared with `totalOptimSteps`. -/
def specOptimSteps (numBatches accum : ℕ) : ℕ :=
  optimStepsInLoop numBatches accum + (if numBatches % accum ≠ 0 then 1 else 0)

/-- Per-batch quantities logged by train_epoch: the batch size
`frames.size(0)` and the scalar values of the total, classification and
inconsistency losses returned by combined_loss for that batch. -/
structure BatchLog where
  size : ℕ
  total : ℚ
  cls : ℚ
  incons : ℚ

/-- len(dataloader.dataset), assuming the loader partitions the dataset. -/
def datasetSizeOf (bs : List BatchLog) : ℕ := (bs.map (fun b => b.size)).sum

/-- running_loss of train_epoch (src/train.py lines 114 and 122): the loss
is divided by accum_steps before being accumulated, weighted by batch size. -/
def runningLoss (bs : List BatchLog) (accum : ℕ) : ℚ :=
  (bs.map (fun b => b.total / (accum : ℚ) * (b.size : ℚ))).sum

/-- running_cls_loss of train_epoch (src/train.py line 123): accumulated
unscaled, weighted by batch size. -/
def runningCls (bs : List BatchLog) : ℚ :=
  (bs.map (fun b => b.cls * (b.size : ℚ))).sum

/-- Reported epoch loss (src/train.py line 136). -/
def epochLoss (bs : List BatchLog) (accum : ℕ) : ℚ :=
  runningLoss bs accum / (datasetSizeOf bs : ℚ)

/-- Reported epoch cls_loss (src/train.py line 137). -/
def epochCls (bs : List BatchLog) : ℚ :=
  runningCls bs / (datasetSizeOf bs : ℚ)

/-- Batch-size-weighted average of the unscaled total loss over the epoch. -/
def weightedAvgTotal (bs : List BatchLog) : ℚ :=
  (bs.map (fun b => b.total * (b.size : ℚ))).sum / (datasetSizeOf bs : ℚ)

/-- A value inside a torch.load result: a tensor (opaque) or a nested
dict of named entries.  A checkpoint blob is a dict of such values: a
bare parameter mapping has parameter names as keys with tensor values,
while the checkpoints train.py saves (line 308) nest the parameters
under keys like model_state_dict next to scalars like epoch. -/
inductive Ckpt (σ : Type) where
  | leaf : σ → Ckpt σ
  | node : List (String × Ckpt σ) → Ckpt σ

/-- model.load_state_dict(d, strict=False) (src/eval.py lines 61, 65,
67), on a model whose parameter names are `paramNames`: entries of `d`
whose key is a parameter name are installed; every other key is recorded
as an unexpected key (and absent parameters as missing keys) and
ignored — with strict=False the call returns without raising, whatever
the keys are.  Shape conflicts on a matching key, the only way
strict=False can still raise, are outside this model because tensor
values are opaque.  The result is the list of installed entries; the
`Except` return type mirrors the try/except structure of the caller. -/
def loadStateDict {σ : Type} (paramNames : List String)
    (d : List (String × Ckpt σ)) : Except String (List (String × Ckpt σ)) :=
  .ok (d.filter (fun p => paramNames.contains p.1))

/-- Dict lookup `k in checkpoint` / `checkpoint[k]` used by the fallback. -/
def lookupKey {σ : Type} (kvs : List (String × Ckpt σ)) (k : String) :
    Option (Ckpt σ) :=
  (kvs.find? (fun p => p.1 == k)).map (fun p => p.2)

/-- load_model from src/eval.py lines 55-72.  The try branch performs
the direct strict=False load; the except branch (lines 62-69) looks for
a nested model_state_dict key, then a nested state_dict key, and raises
ValueError only if neither exists.  Because the strict=False direct
load never raises on a dict blob, the except branch is unreachable dead
code; it is transcribed here for fidelity to the source. -/
def load_model {σ : Type} (paramNames : List String)
    (checkpoint : List (String × Ckpt σ)) :
    Except String (List (String × Ckpt σ)) :=
  match loadStateDict paramNames checkpoint with
  | .ok installed => .ok installed
  | .error _ =>
    match lookupKey checkpoint "model_state_dict" with
    | some (Ckpt.node kvs) => loadStateDict paramNames kvs
    | some (Ckpt.leaf _) => .error "load_state_dict failed"
    | none =>
      match lookupKey checkpoint "state_dict" with
      | some (Ckpt.node kvs) => loadStateDict paramNames kvs
      | some (Ckpt.leaf _) => .error "load_state_dict failed"
      | none => .error "Could not load model"

/-- Keyword parameters accepted by DeepfakeDetector.forward
(src/network/model.py line 46): `def forward(self, x, batch_size)` with
`self` bound by the method call, `x` bound by the positional `frames`. -/
def forwardParams : List String := ["x", "batch_size"]

/-- Keyword arguments of the forward invocation in the evaluation driver,
src/eval.py line 123 (and identically src/test.py line 155):
`model(frames, batch_size=..., ablation=...)`. -/
def evalForwardKwargs : List String := ["batch_size", "ablation"]

/-- First keyword argument not accepted by the callee, if any. -/
def unexpectedKwarg (params kwargs : List String) : Option String :=
  kwargs.find? (fun k => !(params.contains k))

/-- Calling forward with the given keyword arguments: Python raises
TypeError on the first unexpected keyword argument. -/
def callForward (kwargs : List String) : Except String Unit :=
  match unexpectedKwarg forwardParams kwargs with
  | some k => .error ("forward got an unexpected keyword argument " ++ k)
  | none => .ok ()

/-- Per-batch body of evaluate (src/eval.py lines 119-132): the forward
call is the first operation of the batch, so the batch completes only if
that call does. -/
def evaluateBatch : Except String Unit := callForward evalForwardKwargs

/-- Two-output linear layer `nn.Linear(dama_dim * 2, 2)` applied to a
single concatenated feature vector. -/
noncomputable def linearGate {m : ℕ} (W : Fin 2 → Fin m → ℝ) (bias : Fin 2 → ℝ)
    (x : Fin m → ℝ) : Fin 2 → ℝ :=
  fun i => (∑ j, W i j * x j) + bias i

/-- nn.Softmax(dim=1) on the two gate logits of one video. -/
noncomputable def softmax2 (z : Fin 2 → ℝ) : Fin 2 → ℝ :=
  fun i => Real.exp (z i) / (Real.exp (z 0) + Real.exp (z 1))

/-- fusion_gate of one video (src/network/model.py lines 32-35 and 104):
softmax over the 2-way linear projection of the channel-concatenation
`[dama_feats, tcm_feats]`. -/
noncomputable def fusionGate {D : ℕ} (W : Fin 2 → Fin (D + D) → ℝ)
    (bias : Fin 2 → ℝ) (dama tcm : Fin D → ℝ) : Fin 2 → ℝ :=
  softmax2 (linearGate W bias (Fin.append dama tcm))

/-- fused_feats of one video (src/network/model.py line 105):
`gate[:, 0] * dama_feats + gate[:, 1] * tcm_feats`. -/
noncomputable def fusedFeats {D : ℕ} (W : Fin 2 → Fin (D + D) → ℝ)
    (bias : Fin 2 → ℝ) (dama tcm : Fin D → ℝ) : Fin D → ℝ :=
  fun k => fusionGate W bias dama tcm 0 * dama k
    + fusionGate W bias dama tcm 1 * tcm k

/-- Convex combination of two feature vectors, as the specification words
the fused feature. -/
noncomputable def convexCombination {D : ℕ} (w0 w1 : ℝ) (u v : Fin D → ℝ) :
    Fin D → ℝ :=
  fun k => w0 * u k + w1 * v k

/-! ### Helper lemmas -/

theorem countP_lt_range (r G : ℕ) :
    (List.range G).countP (fun g => decide (g < r)) = min r G := by
  induction G with
  | zero => simp
  | succ n ih =>
    rw [List.range_succ, List.countP_append, ih]
    by_cases h : n < r <;> simp [h] <;> omega

theorem sum_map_shardSize (T G : ℕ) (l : List ℕ) :
    (l.map (shardSize T G)).sum
      = l.length * (T / G) + l.countP (fun g => decide (g < T % G)) := by
  induction l with
  | nil => simp
  | cons g l ih =>
    rw [List.map_cons, List.sum_cons, ih, List.countP_cons, List.length_cons,
      Nat.succ_mul]
    unfold shardSize
    by_cases h : g < T % G <;> simp [h] <;> omega

theorem rawShards_sum (T G : ℕ) (hG : 0 < G) : (rawShards T G).sum = T := by
  rw [rawShards, sum_map_shardSize, List.length_range, countP_lt_range,
    min_eq_left (Nat.mod_lt T hG).le]
  have := Nat.div_add_mod T G
  omega

theorem sum_filter_pos (l : List ℕ) :
    (l.filter (fun c => decide (0 < c))).sum = l.sum := by
  induction l with
  | nil => rfl
  | cons c l ih =>
    by_cases h : 0 < c
    · rw [List.filter_cons_of_pos (by simpa using h), List.sum_cons, ih, List.sum_cons]
    · rw [List.filter_cons_of_neg (by simpa using h), ih, List.sum_cons]
      omega

theorem shardFrames_flatten (cs : List ℕ) (s : ℕ) :
    (shardFrames cs s).flatten = List.range' s cs.sum := by
  induction cs generalizing s with
  | nil => rfl
  | cons c cs ih =>
    rw [shardFrames]
    by_cases h : c = 0
    · rw [if_pos h, ih, List.sum_cons, h, Nat.zero_add]
    · rw [if_neg h, List.flatten_cons, ih, List.range'_append_1, List.sum_cons,
        Nat.add_comm]

theorem optimStepsInLoop_eq_div (n a : ℕ) :
    optimStepsInLoop n a = n / a := by
  induction n with
  | zero => simp [optimStepsInLoop]
  | succ n ih =>
    rw [optimStepsInLoop, List.range_succ, List.filter_append, List.length_append]
    rw [optimStepsInLoop] at ih
    rw [ih, Nat.succ_div]
    have hdvd : a ∣ n + 1 ↔ (n + 1) % a = 0 := Nat.dvd_iff_mod_eq_zero
    by_cases h : (n + 1) % a = 0
    · rw [List.filter_cons_of_pos (by simpa using h), if_pos (hdvd.mpr h)]
      rfl
    · rw [List.filter_cons_of_neg (by simpa using h), if_neg (fun hd => h (hdvd.mp hd))]
      rfl

theorem runningLoss_eq (bs : List BatchLog) (a : ℕ) :
    runningLoss bs a = (bs.map (fun b => b.total * (b.size : ℚ))).sum / (a : ℚ) := by
  unfold runningLoss
  have hfun : (fun b : BatchLog => b.total / (a : ℚ) * (b.size : ℚ))
      = fun b : BatchLog => b.total * (b.size : ℚ) * ((a : ℚ))⁻¹ := by
    funext b
    ring
  rw [hfun, List.sum_map_mul_right, div_eq_mul_inv]

/-! ### Claim theorems -/

/-- C1: the claim says every forward pass returns a bundle containing all
the fields the staged loss consumes, so that combined_loss applied to a
forward-pass output evaluates without a missing-key error in every phase.
The code violates this: forward returns only the keys logits, dama_feats
and tcm_consistency, while combined_loss reads outputs at the key
tcm_inconsistency unconditionally (src/train.py line 55, before any phase
branch), so every application of combined_loss to a forward-pass output
raises KeyError tcm_inconsistency, in every phase (and the key tcm_feats
needed at line 89 is missing as well). -/
theorem forward_output_missing_loss_keys
    (logits dama_feats tcm_consistency : Tensor) (labels : List (Fin 2))
    (criterion : Tensor → List (ℚ × ℚ) → FVal) (epoch max_epochs : ℚ) :
    combined_loss (forward_output logits dama_feats tcm_consistency) labels
      criterion epoch max_epochs = .error "tcm_inconsistency" := rfl

/-- Concrete loss input for the empty-real-mask evaluation: one video,
labelled fake, with all tensors present under the keys combined_loss
reads. -/
def c2Outputs : List (String × Tensor) :=
  [("logits", [[.val 0, .val 0]]), ("tcm_inconsistency", [[.val 0]]),
   ("dama_feats", [[.val 0]]), ("tcm_feats", [[.val 0]])]

/-- C2: the claim (and the spec) say an empty real or fake subset must
contribute exactly zero to the consistency loss.  The code instead takes
the mean of an empty tensor, which is NaN: for a Full-phase batch whose
only video is fake (empty real mask), combined_loss does not raise, but
the inconsistency loss diagnostic — and hence the total loss — is NaN,
not the fake-side hinge term alone. -/
theorem empty_mask_consistency_nan :
    combined_loss c2Outputs [1] (fun _ _ => FVal.val 0) 1 1
      = .ok (FVal.nan, FVal.val 0, FVal.nan, FVal.val 0) := by
  have hlog : dictGet c2Outputs "logits" = .ok [[.val 0, .val 0]] := rfl
  have hsc : dictGet c2Outputs "tcm_inconsistency" = .ok [[.val 0]] := rfl
  have hdf : dictGet c2Outputs "dama_feats" = .ok [[.val 0]] := rfl
  have htf : dictGet c2Outputs "tcm_feats" = .ok [[.val 0]] := rfl
  rw [combined_loss, hlog, hsc, hdf, htf]
  dsimp only
  rw [if_neg (show ¬ ((1 : ℚ) < 0.1 * 1) by norm_num),
    if_neg (show ¬ ((0.1 : ℚ) * 1 ≤ 1 ∧ (1 : ℚ) < 0.2 * 1) by norm_num)]
  simp only [List.map, oneHot2, meanF, selectMask, sumF, addF, subF, mulF, scaleF,
    reluF, frobSq, matMulF, dotF, List.transpose, List.zip, List.zipWith,
    List.filter, List.foldr, List.isEmpty, List.length, dynamic_weight]
  norm_num

/-- C3 counterexample: the claim says the flush step fires exactly when
the last window of batches is partial, so a dataset of 10 batches with
accum_steps = 3 always gets 4 optimizer steps.  The code conditions the
flush on `len(dataset) % accum_steps` — the number of samples, not
batches: 10 batches over 30 samples (batch size 3) with accum_steps = 3
yield only 3 optimizer steps (the last batch is never applied), while the
claim predicts 4. -/
theorem accum_flush_counterexample :
    totalOptimSteps 10 30 3 = 3 ∧ specOptimSteps 10 3 = 4 := by decide

/-- C3 amended: in-loop optimizer steps fire after every accum_steps-th
batch (numBatches / accum_steps of them), and the final flush step fires
iff the number of dataset samples is not a multiple of accum_steps; the
spec scenario of 10 batches with accum_steps = 3 gives 4 steps only when
the sample count is also not a multiple of 3, e.g. at batch size 1
(10 samples). -/
theorem accum_steps_amended (n ds a : ℕ) (_haccum : 0 < a) :
    totalOptimSteps n ds a = n / a + (if ds % a = 0 then 0 else 1) ∧
    totalOptimSteps 10 10 3 = 4 ∧ specOptimSteps 10 3 = 4 := by
  refine ⟨?_, by decide, by decide⟩
  rw [totalOptimSteps, optimStepsInLoop_eq_div, flushSteps]
  by_cases h : ds % a = 0 <;> simp [h]

/-- Witness for the amended C3 theorem at numBatches 10, dataset size 30,
accum_steps 3. -/
theorem accum_steps_amended_witness :
    0 < 3 ∧
    (totalOptimSteps 10 30 3 = 10 / 3 + (if 30 % 3 = 0 then 0 else 1) ∧
      totalOptimSteps 10 10 3 = 4 ∧ specOptimSteps 10 3 = 4) :=
  ⟨by decide, accum_steps_amended 10 30 3 (by decide)⟩

/-- C4: in the warm-up phase (training progress p = epoch / max_epochs
below 0.1) combined_loss returns the classification loss alone, with the
inconsistency and orthogonality diagnostics exactly 0, and returns
immediately: the result only requires the logits and tcm_inconsistency
keys, so no orthogonality term is computed from dama_feats / tcm_feats
(the witness bundle below does not even contain those keys). -/
theorem warmup_loss_classification_only
    (outputs : List (String × Tensor)) (labels : List (Fin 2))
    (criterion : Tensor → List (ℚ × ℚ) → FVal) (epoch max_epochs : ℚ)
    (logits scores : Tensor)
    (hlog : dictGet outputs "logits" = .ok logits)
    (hsc : dictGet outputs "tcm_inconsistency" = .ok scores)
    (hM : 0 < max_epochs) (hp : epoch / max_epochs < 0.1) :
    combined_loss outputs labels criterion epoch max_epochs
      = .ok (criterion logits (labels.map oneHot2),
             criterion logits (labels.map oneHot2), FVal.val 0, FVal.val 0) := by
  have hcode : epoch < 0.1 * max_epochs := by
    have := (div_lt_iff₀ hM).mp hp
    linarith
  rw [combined_loss, hlog, hsc]
  dsimp only
  rw [if_pos hcode]

/-- Concrete warm-up bundle for the C4 witness: it carries only the two
keys the warm-up branch reads. -/
def c4Outputs : List (String × Tensor) :=
  [("logits", [[.val 1, .val 2]]), ("tcm_inconsistency", [[.val 5]])]

/-- Witness for the warm-up theorem at epoch 0 of 10, on a bundle without
dama_feats or tcm_feats. -/
theorem warmup_loss_classification_only_witness :
    (dictGet c4Outputs "logits" = .ok [[.val 1, .val 2]] ∧
      dictGet c4Outputs "tcm_inconsistency" = .ok [[.val 5]] ∧
      (0 : ℚ) < 10 ∧ (0 : ℚ) / 10 < 0.1) ∧
    combined_loss c4Outputs [0] (fun _ _ => FVal.val 7) 0 10
      = .ok (FVal.val 7, FVal.val 7, FVal.val 0, FVal.val 0) :=
  ⟨⟨rfl, rfl, by norm_num, by norm_num⟩,
    warmup_loss_classification_only c4Outputs [0] (fun _ _ => FVal.val 7) 0 10
      [[.val 1, .val 2]] [[.val 5]] rfl rfl (by norm_num) (by norm_num)⟩

/-- C5: the Full-phase ramp weight computed by combined_loss equals
0.3 * min(1, (p - 0.2) / 0.8) for p = epoch / max_epochs; that ramp is
monotonically non-decreasing in p on the ramp region, equals 0 at
p = 0.2, and is capped at 0.3 for p >= 1. -/
theorem ramp_weight_spec (epoch M : ℚ) (hM : 0 < M) :
    dynamic_weight epoch M = rampWeight (epoch / M) ∧
    (∀ p q : ℚ, 0.2 ≤ p → p ≤ q → rampWeight p ≤ rampWeight q) ∧
    rampWeight 0.2 = 0 ∧
    (∀ p : ℚ, 1 ≤ p → rampWeight p = 0.3) := by
  have hM0 : (M : ℚ) ≠ 0 := ne_of_gt hM
  refine ⟨?_, ?_, by norm_num [rampWeight], ?_⟩
  · unfold dynamic_weight rampWeight
    congr 2
    field_simp
    ring
  · intro p q hp hpq
    unfold rampWeight
    have hdiv : (p - 0.2) / 0.8 ≤ (q - 0.2) / 0.8 :=
      (div_le_div_iff_of_pos_right (by norm_num)).mpr (by linarith)
    exact mul_le_mul_of_nonneg_left (min_le_min le_rfl hdiv) (by norm_num)
  · intro p hp
    unfold rampWeight
    rw [min_eq_left (by rw [le_div_iff₀ (by norm_num)]; linarith)]
    norm_num

/-- Witness for the ramp-weight theorem at epoch 1 of max_epochs 2. -/
theorem ramp_weight_spec_witness :
    (0 : ℚ) < 2 ∧
    (dynamic_weight 1 2 = rampWeight (1 / 2) ∧
      (∀ p q : ℚ, 0.2 ≤ p → p ≤ q → rampWeight p ≤ rampWeight q) ∧
      rampWeight 0.2 = 0 ∧
      (∀ p : ℚ, 1 ≤ p → rampWeight p = 0.3)) :=
  ⟨by norm_num, ramp_weight_spec 1 2 (by norm_num)⟩

/-- C6: for every frame count T and device count G > 1, the dispatch loop
partitions the temporal axis into contiguous shards: the processed shard
sizes sum to exactly T, exactly T mod G shards receive one extra frame
(size T / G + 1, which is the ceiling of T / G whenever T mod G is
nonzero), every other processed shard has size T / G, zero-size shards
are skipped entirely, and the concatenation of the shard frame slices is
exactly the frame range 0, ..., T - 1. -/
theorem dispatcher_shards_spec (T G : ℕ) (hG : 1 < G) :
    (shardSizes T G).sum = T ∧
    (shardSizes T G).count (T / G + 1) = T % G ∧
    (∀ c ∈ shardSizes T G, (c = T / G + 1 ∨ c = T / G) ∧ 0 < c) ∧
    (T % G ≠ 0 → T / G + 1 = (T + G - 1) / G) ∧
    (shardFrames (rawShards T G) 0).flatten = List.range T := by
  have hG0 : 0 < G := Nat.lt_of_lt_of_le Nat.one_pos hG.le
  refine ⟨?_, ?_, ?_, ?_, ?_⟩
  · rw [shardSizes, sum_filter_pos, rawShards_sum T G hG0]
  · rw [shardSizes, List.count_filter (by simp)]
    rw [rawShards, List.count_eq_countP, List.countP_map]
    rw [List.countP_congr ?_]
    · rw [countP_lt_range, min_eq_left (Nat.mod_lt T hG0).le]
    · intro g _
      unfold shardSize
      by_cases h : g < T % G <;> simp [h, Function.comp]
  · intro c hc
    rw [shardSizes, List.mem_filter] at hc
    obtain ⟨hmem, hpos⟩ := hc
    rw [rawShards, List.mem_map] at hmem
    obtain ⟨g, _, rfl⟩ := hmem
    refine ⟨?_, by simpa using hpos⟩
    unfold shardSize
    by_cases h : g < T % G <;> simp [h]
  · intro hr
    obtain ⟨q, r, hrG, hT⟩ : ∃ q r, r < G ∧ T = G * q + r :=
      ⟨T / G, T % G, Nat.mod_lt T hG0, (Nat.div_add_mod T G).symm⟩
    subst hT
    have hq : (G * q + r) / G = q := by
      rw [Nat.mul_add_div hG0, Nat.div_eq_of_lt hrG, Nat.add_zero]
    have hr1 : 0 < r := by
      rcases Nat.eq_zero_or_pos r with h0 | h0
      · exfalso
        apply hr
        rw [h0, Nat.add_zero, Nat.mul_mod_right]
      · exact h0
    have hmul : G * (q + 1) = G * q + G := by ring
    rw [hq, show G * q + r + G - 1 = G * (q + 1) + (r - 1) by omega,
      Nat.mul_add_div hG0, Nat.div_eq_of_lt (by omega), Nat.add_zero]
  · rw [shardFrames_flatten, rawShards_sum T G hG0, List.range_eq_range']

/-- Witness for the dispatcher theorem at T = 7 frames over G = 3 devices
(shards of sizes 3, 2, 2). -/
theorem dispatcher_shards_spec_witness :
    1 < 3 ∧
    ((shardSizes 7 3).sum = 7 ∧
      (shardSizes 7 3).count (7 / 3 + 1) = 7 % 3 ∧
      (∀ c ∈ shardSizes 7 3, (c = 7 / 3 + 1 ∨ c = 7 / 3) ∧ 0 < c) ∧
      (7 % 3 ≠ 0 → 7 / 3 + 1 = (7 + 3 - 1) / 3) ∧
      (shardFrames (rawShards 7 3) 0).flatten = List.range 7) :=
  ⟨by decide, dispatcher_shards_spec 7 3 (by decide)⟩

/-- C7: the claim says checkpoint loading recovers via a three-tier
fallback, and in particular a blob holding only a state_dict key loads
successfully via the second fallback tier.  The code cannot do this:
the direct load at eval.py:61 passes strict=False, which treats every
non-matching key as an ignored unexpected key and returns without
raising, so the except fallback (eval.py:62-69) is unreachable, and a
blob holding only a state_dict key — like the epoch/model_state_dict
checkpoints train.py itself saves — is consumed by the direct load with
zero parameters installed.  The first two conjuncts show the direct
load never raises and load_model always returns just its filtered
result; the last two evaluate load_model on a state_dict-only blob and
on a train.py-style checkpoint, both installing nothing. -/
theorem checkpoint_fallback_dead_code {σ : Type} (pn : List String)
    (checkpoint : List (String × Ckpt σ)) (sd sd2 : Ckpt σ) :
    (loadStateDict pn checkpoint).isOk = true ∧
    load_model pn checkpoint
      = .ok (checkpoint.filter (fun p => pn.contains p.1)) ∧
    load_model ["classifier.weight"] [("state_dict", sd)] = .ok [] ∧
    load_model ["classifier.weight"]
        [("epoch", sd2), ("model_state_dict", sd)] = .ok [] :=
  ⟨rfl, rfl, rfl, rfl⟩

/-- C8: for arbitrary input embeddings, the fusion gate is a softmax over
the 2-way linear projection of the channel-concatenation, so the two gate
weights of a video sum to exactly 1 and are nonnegative, and the fused
feature is precisely the convex combination
gate 0 * dama_feats + gate 1 * tcm_feats. -/
theorem fusion_gate_convex {D : ℕ} (W : Fin 2 → Fin (D + D) → ℝ)
    (bias : Fin 2 → ℝ) (dama tcm : Fin D → ℝ) :
    fusionGate W bias dama tcm 0 + fusionGate W bias dama tcm 1 = 1 ∧
    (0 ≤ fusionGate W bias dama tcm 0 ∧ 0 ≤ fusionGate W bias dama tcm 1) ∧
    fusedFeats W bias dama tcm
      = convexCombination (fusionGate W bias dama tcm 0)
          (fusionGate W bias dama tcm 1) dama tcm := by
  have hpos : 0 < Real.exp (linearGate W bias (Fin.append dama tcm) 0)
      + Real.exp (linearGate W bias (Fin.append dama tcm) 1) :=
    add_pos (Real.exp_pos _) (Real.exp_pos _)
  refine ⟨?_, ⟨?_, ?_⟩, rfl⟩
  · unfold fusionGate softmax2
    rw [div_add_div_same, div_self (ne_of_gt hpos)]
  · exact div_nonneg (Real.exp_pos _).le hpos.le
  · exact div_nonneg (Real.exp_pos _).le hpos.le

/-- C9: the forward invocation of the evaluation driver (src/eval.py line
123, identical at src/test.py line 155) passes the keyword argument
ablation, which DeepfakeDetector.forward does not accept, so the call
raises TypeError and no evaluation batch can complete. -/
theorem eval_forward_call_unexpected_kwarg :
    unexpectedKwarg forwardParams evalForwardKwargs = some "ablation" ∧
    callForward evalForwardKwargs
      = .error "forward got an unexpected keyword argument ablation" ∧
    forwardParams.contains "ablation" = false ∧
    evaluateBatch.isOk = false :=
  ⟨rfl, rfl, rfl, rfl⟩

/-- C10: the reported epoch loss accumulates the per-batch loss after the
division by accum_steps (batch-size weighted), while the cls component is
accumulated unscaled, so the reported loss equals the batch-size-weighted
average total loss divided by accum_steps, and for accum_steps > 1 it can
be strictly smaller than the reported cls_loss component alone. -/
theorem accum_reported_loss_scaling (bs : List BatchLog) (a : ℕ)
    (_ha : 0 < a) :
    epochLoss bs a = weightedAvgTotal bs / (a : ℚ) ∧
    ∃ bs2 a2, 1 < a2 ∧ epochLoss bs2 a2 < epochCls bs2 := by
  constructor
  · unfold epochLoss weightedAvgTotal
    rw [runningLoss_eq, div_div, div_div, mul_comm]
  · refine ⟨[⟨1, 1, 1, 0⟩], 2, by norm_num, ?_⟩
    norm_num [epochLoss, epochCls, runningLoss, runningCls, datasetSizeOf]

/-- Witness for the C10 theorem on a one-batch epoch with accum_steps 2. -/
theorem accum_reported_loss_scaling_witness :
    0 < 2 ∧
    (epochLoss [⟨4, 3, 2, 1⟩] 2 = weightedAvgTotal [⟨4, 3, 2, 1⟩] / (2 : ℚ) ∧
      ∃ bs2 a2, 1 < a2 ∧ epochLoss bs2 a2 < epochCls bs2) :=
  ⟨by norm_num, accum_reported_loss_scaling [⟨4, 3, 2, 1⟩] 2 (by norm_num)⟩
